import Mathlib

/-!
Verification of the git-scripts MCP bridge (`mcp-server/git_scripts_mcp/server.py`).

The Python module bridges a framed tool-call protocol to a family of external
git scripts.  This file gives a shallow embedding of that bridge:

* `PyVal` models the argument values that can appear in a tool call (the
  schemas only ever declare strings and booleans; `vNone` models an absent
  lookup result, i.e. Python `None`).
* Byte sequences captured from child processes are `List Nat`.
* `pyEncode` / `pyDecode` model Python `str.encode()` / `bytes.decode()`
  with the default strict UTF-8 codec: `pyDecode` fails (`none`) exactly on
  byte sequences that are not valid UTF-8, which in Python raises a
  `UnicodeDecodeError`.
* `Env` packages the ambient world the server reads: the resolved script
  directory, which script files exist, and what each spawned process does
  (`SpawnResult`).  Handlers are deterministic functions of `Env` and the
  argument mapping, returning a `HandlerOut`: the Python return value or
  raised exception, plus the list of process spawn attempts made.

Exceptions are modelled by `PyExc`; `call_tool`'s try/except structure is
`dispatchExc`.  The renderings `pyReprVal`/`pyStrExc` model `repr()`/`str()`
of those values; no claim depends on their exact text.
-/

/-- A Python value that can occur in a tool-call argument mapping
(the declared schemas use only strings and booleans); `vNone` is `None`. -/
inductive PyVal where
  | vStr (s : String)
  | vBool (b : Bool)
  | vNone
  deriving DecidableEq, Repr

/-- A tool-call argument mapping (`Dict[str, Any]`), as an association list. -/
def Args := List (String × PyVal)

/-- `args.get(key)`-style lookup returning `none` when the key is absent. -/
def pyLookup : Args → String → Option PyVal
  | [], _ => none
  | (k, v) :: rest, key => if k = key then some v else pyLookup rest key

/-- Python `args.get(key)`: `None` when the key is absent. -/
def pyGet (a : Args) (key : String) : PyVal :=
  (pyLookup a key).getD .vNone

/-- Python `args.get(key, default)`: the default only when the key is absent. -/
def pyGetD (a : Args) (key : String) (d : PyVal) : PyVal :=
  (pyLookup a key).getD d

/-- Python truthiness of the modelled values: `None` and `""` and `False`
are falsy. -/
def PyVal.truthy : PyVal → Bool
  | .vStr s => decide (s ≠ "")
  | .vBool b => b
  | .vNone => false

/-- Python `str()` of a modelled value, as used by f-string interpolation. -/
def PyVal.pyStr : PyVal → String
  | .vStr s => s
  | .vBool true => "True"
  | .vBool false => "False"
  | .vNone => "None"

/-- Python `repr()` of a modelled value (quote escaping inside strings is
not modelled; no claim depends on this text). -/
def pyReprVal : PyVal → String
  | .vStr s => "\x27" ++ s ++ "\x27"
  | .vBool true => "True"
  | .vBool false => "False"
  | .vNone => "None"

/-- UTF-8 encoding of a single Unicode code point, as byte values. -/
def utf8EncodeChar (n : Nat) : List Nat :=
  if n < 0x80 then [n]
  else if n < 0x800 then [0xC0 + n / 64, 0x80 + n % 64]
  else if n < 0x10000 then [0xE0 + n / 4096, 0x80 + n / 64 % 64, 0x80 + n % 64]
  else [0xF0 + n / 262144, 0x80 + n / 4096 % 64, 0x80 + n / 64 % 64, 0x80 + n % 64]

/-- UTF-8 encoding of a character sequence. -/
def utf8EncodeChars : List Char → List Nat
  | [] => []
  | c :: cs => utf8EncodeChar c.toNat ++ utf8EncodeChars cs

/-- Python `str.encode()` (UTF-8). -/
def pyEncode (s : String) : List Nat :=
  utf8EncodeChars s.data

/-- Strict UTF-8 decoding, one byte at a time.  `expect` is the number of
continuation bytes still required for the current sequence, `minCp` the
smallest code point the current sequence may legally produce (overlong
rejection) and `acc` the partial code point.  Invalid lead bytes,
truncated or malformed continuation bytes, overlong encodings, surrogate
code points and code points above `U+10FFFF` are all rejected, matching
CPython's strict `bytes.decode()`. -/
def utf8DecodeAux : Nat → Nat → Nat → List Nat → Option (List Nat)
  | 0, _, _, [] => some []
  | 0, _, _, b :: l =>
    if b < 0x80 then (utf8DecodeAux 0 0 0 l).map (fun cps => b :: cps)
    else if b < 0xC2 then none
    else if b ≤ 0xDF then utf8DecodeAux 1 0x80 (b - 0xC0) l
    else if b ≤ 0xEF then utf8DecodeAux 2 0x800 (b - 0xE0) l
    else if b ≤ 0xF4 then utf8DecodeAux 3 0x10000 (b - 0xF0) l
    else none
  | _ + 1, _, _, [] => none
  | expect + 1, minCp, acc, b2 :: l =>
    if b2 < 0x80 ∨ 0xBF < b2 then none
    else
      let acc2 := acc * 64 + (b2 - 0x80)
      if expect = 0 then
        if acc2 < minCp ∨ (0xd800 ≤ acc2 ∧ acc2 ≤ 0xdfff) ∨ 0x10FFFF < acc2 then none
        else (utf8DecodeAux 0 0 0 l).map (fun cps => acc2 :: cps)
      else utf8DecodeAux expect minCp acc2 l

/-- Strict UTF-8 decoding of a byte sequence into code points; `none`
models a raised `UnicodeDecodeError`. -/
def utf8DecodeCps (l : List Nat) : Option (List Nat) :=
  utf8DecodeAux 0 0 0 l

/-- Python strict `bytes.decode()` (UTF-8): `none` models a raised
`UnicodeDecodeError`. -/
def pyDecode (l : List Nat) : Option String :=
  (utf8DecodeCps l).map (fun cps => ⟨cps.map Char.ofNat⟩)

theorem charOfNat_toNat (c : Char) : Char.ofNat c.toNat = c := by
  have hv : (Char.toNat c).isValidChar := c.valid
  unfold Char.ofNat
  rw [dif_pos hv]
  apply Char.eq_of_val_eq
  apply UInt32.eq_of_toBitVec_eq
  apply BitVec.eq_of_toNat_eq
  rfl

theorem decAux_ascii (b : Nat) (l : List Nat) (hb : b < 0x80) :
    utf8DecodeAux 0 0 0 (b :: l) = (utf8DecodeAux 0 0 0 l).map (fun cps => b :: cps) := by
  simp only [utf8DecodeAux]
  rw [if_pos hb]

theorem decAux_lead2 (b : Nat) (l : List Nat) (h1 : 0xC2 ≤ b) (h2 : b ≤ 0xDF) :
    utf8DecodeAux 0 0 0 (b :: l) = utf8DecodeAux 1 0x80 (b - 0xC0) l := by
  simp only [utf8DecodeAux]
  have g1 : ¬ b < 0x80 := by omega
  have g2 : ¬ b < 0xC2 := by omega
  rw [if_neg g1, if_neg g2, if_pos h2]

theorem decAux_lead3 (b : Nat) (l : List Nat) (h1 : 0xE0 ≤ b) (h2 : b ≤ 0xEF) :
    utf8DecodeAux 0 0 0 (b :: l) = utf8DecodeAux 2 0x800 (b - 0xE0) l := by
  simp only [utf8DecodeAux]
  have g1 : ¬ b < 0x80 := by omega
  have g2 : ¬ b < 0xC2 := by omega
  have g3 : ¬ b ≤ 0xDF := by omega
  rw [if_neg g1, if_neg g2, if_neg g3, if_pos h2]

theorem decAux_lead4 (b : Nat) (l : List Nat) (h1 : 0xF0 ≤ b) (h2 : b ≤ 0xF4) :
    utf8DecodeAux 0 0 0 (b :: l) = utf8DecodeAux 3 0x10000 (b - 0xF0) l := by
  simp only [utf8DecodeAux]
  have g1 : ¬ b < 0x80 := by omega
  have g2 : ¬ b < 0xC2 := by omega
  have g3 : ¬ b ≤ 0xDF := by omega
  have g4 : ¬ b ≤ 0xEF := by omega
  rw [if_neg g1, if_neg g2, if_neg g3, if_neg g4, if_pos h2]

theorem decAux_cont3 (minCp acc b2 : Nat) (l : List Nat) (hb1 : 0x80 ≤ b2) (hb2 : b2 ≤ 0xBF) :
    utf8DecodeAux 3 minCp acc (b2 :: l) =
      utf8DecodeAux 2 minCp (acc * 64 + (b2 - 0x80)) l := by
  show utf8DecodeAux (2 + 1) minCp acc (b2 :: l) = _
  simp only [utf8DecodeAux]
  have g : ¬ (b2 < 0x80 ∨ 0xBF < b2) := by omega
  have g2 : ¬ ((2 : Nat) = 0) := by omega
  rw [if_neg g, if_neg g2]

theorem decAux_cont2 (minCp acc b2 : Nat) (l : List Nat) (hb1 : 0x80 ≤ b2) (hb2 : b2 ≤ 0xBF) :
    utf8DecodeAux 2 minCp acc (b2 :: l) =
      utf8DecodeAux 1 minCp (acc * 64 + (b2 - 0x80)) l := by
  show utf8DecodeAux (1 + 1) minCp acc (b2 :: l) = _
  simp only [utf8DecodeAux]
  have g : ¬ (b2 < 0x80 ∨ 0xBF < b2) := by omega
  have g2 : ¬ ((1 : Nat) = 0) := by omega
  rw [if_neg g, if_neg g2]

theorem decAux_cont_last (minCp acc b2 : Nat) (l : List Nat) (hb1 : 0x80 ≤ b2) (hb2 : b2 ≤ 0xBF)
    (hok : ¬ (acc * 64 + (b2 - 0x80) < minCp ∨
      (0xd800 ≤ acc * 64 + (b2 - 0x80) ∧ acc * 64 + (b2 - 0x80) ≤ 0xdfff) ∨
      0x10FFFF < acc * 64 + (b2 - 0x80))) :
    utf8DecodeAux 1 minCp acc (b2 :: l) =
      (utf8DecodeAux 0 0 0 l).map (fun cps => (acc * 64 + (b2 - 0x80)) :: cps) := by
  show utf8DecodeAux (0 + 1) minCp acc (b2 :: l) = _
  simp only [utf8DecodeAux]
  have g : ¬ (b2 < 0x80 ∨ 0xBF < b2) := by omega
  rw [if_neg g]
  simp only [if_true]
  rw [if_neg hok]

theorem utf8DecodeAux_encodeChar (n : Nat) (hv : n.isValidChar) (rest : List Nat) :
    utf8DecodeAux 0 0 0 (utf8EncodeChar n ++ rest) =
      (utf8DecodeAux 0 0 0 rest).map (fun cps => n :: cps) := by
  have hv' : n < 0xd800 ∨ (0xdfff < n ∧ n < 0x110000) := hv
  unfold utf8EncodeChar
  by_cases h1 : n < 0x80
  · rw [if_pos h1]
    exact decAux_ascii n rest h1
  · rw [if_neg h1]
    by_cases h2 : n < 0x800
    · rw [if_pos h2]
      show utf8DecodeAux 0 0 0 ((0xC0 + n / 64) :: (0x80 + n % 64) :: rest) = _
      rw [decAux_lead2 (0xC0 + n / 64) ((0x80 + n % 64) :: rest) (by omega) (by omega)]
      rw [decAux_cont_last 0x80 (0xC0 + n / 64 - 0xC0) (0x80 + n % 64) rest
        (by omega) (by omega) (by omega)]
      have hcp : (0xC0 + n / 64 - 0xC0) * 64 + (0x80 + n % 64 - 0x80) = n := by omega
      rw [hcp]
    · rw [if_neg h2]
      by_cases h3 : n < 0x10000
      · rw [if_pos h3]
        show utf8DecodeAux 0 0 0
          ((0xE0 + n / 4096) :: (0x80 + n / 64 % 64) :: (0x80 + n % 64) :: rest) = _
        rw [decAux_lead3 (0xE0 + n / 4096) ((0x80 + n / 64 % 64) :: (0x80 + n % 64) :: rest)
          (by omega) (by omega)]
        rw [decAux_cont2 0x800 (0xE0 + n / 4096 - 0xE0) (0x80 + n / 64 % 64)
          ((0x80 + n % 64) :: rest) (by omega) (by omega)]
        rw [decAux_cont_last 0x800 ((0xE0 + n / 4096 - 0xE0) * 64 + (0x80 + n / 64 % 64 - 0x80))
          (0x80 + n % 64) rest (by omega) (by omega) (by omega)]
        have hcp : ((0xE0 + n / 4096 - 0xE0) * 64 + (0x80 + n / 64 % 64 - 0x80)) * 64 +
            (0x80 + n % 64 - 0x80) = n := by omega
        rw [hcp]
      · rw [if_neg h3]
        show utf8DecodeAux 0 0 0 ((0xF0 + n / 262144) :: (0x80 + n / 4096 % 64) ::
            (0x80 + n / 64 % 64) :: (0x80 + n % 64) :: rest) = _
        have h4 : n < 0x110000 := by omega
        rw [decAux_lead4 (0xF0 + n / 262144)
          ((0x80 + n / 4096 % 64) :: (0x80 + n / 64 % 64) :: (0x80 + n % 64) :: rest)
          (by omega) (by omega)]
        rw [decAux_cont3 0x10000 (0xF0 + n / 262144 - 0xF0) (0x80 + n / 4096 % 64)
          ((0x80 + n / 64 % 64) :: (0x80 + n % 64) :: rest) (by omega) (by omega)]
        rw [decAux_cont2 0x10000 ((0xF0 + n / 262144 - 0xF0) * 64 + (0x80 + n / 4096 % 64 - 0x80))
          (0x80 + n / 64 % 64) ((0x80 + n % 64) :: rest) (by omega) (by omega)]
        rw [decAux_cont_last 0x10000
          (((0xF0 + n / 262144 - 0xF0) * 64 + (0x80 + n / 4096 % 64 - 0x80)) * 64 +
            (0x80 + n / 64 % 64 - 0x80))
          (0x80 + n % 64) rest (by omega) (by omega) (by omega)]
        have hcp : (((0xF0 + n / 262144 - 0xF0) * 64 + (0x80 + n / 4096 % 64 - 0x80)) * 64 +
            (0x80 + n / 64 % 64 - 0x80)) * 64 + (0x80 + n % 64 - 0x80) = n := by omega
        rw [hcp]

theorem utf8DecodeCps_encodeChars (cs : List Char) :
    utf8DecodeCps (utf8EncodeChars cs) = some (cs.map Char.toNat) := by
  induction cs with
  | nil => rfl
  | cons c cs ih =>
    show utf8DecodeAux 0 0 0 (utf8EncodeChar c.toNat ++ utf8EncodeChars cs) = _
    rw [utf8DecodeAux_encodeChar c.toNat c.valid]
    unfold utf8DecodeCps at ih
    rw [ih]
    rfl

/-- Round trip: decoding the UTF-8 encoding of a string recovers it, so the
`CalledProcessError` payloads built by `_run_command` always decode. -/
theorem pyDecode_pyEncode (s : String) : pyDecode (pyEncode s) = some s := by
  unfold pyDecode pyEncode
  rw [utf8DecodeCps_encodeChars]
  show some (String.mk ((s.data.map Char.toNat).map Char.ofNat)) = some s
  rw [List.map_map]
  have : (Char.ofNat ∘ Char.toNat) = id := by
    funext c
    exact charOfNat_toNat c
  rw [this, List.map_id]

/-- The byte `0xFF` is never valid UTF-8, so the strict decode fails. -/
theorem pyDecode_invalid_byte : pyDecode [0xFF] = none := rfl

/-- Characters removed by Python `str.strip()` with no argument
(ASCII whitespace; the rarely seen non-ASCII whitespace stripping is not
modelled, no claim exercises it). -/
def pyIsSpace (c : Char) : Bool :=
  c = ' ' || c = '\t' || c = '\n' || c = '\x0d' || c = '\x0b' || c = '\x0c'

/-- Python `str.strip()`. -/
def pyStrip (s : String) : String :=
  ⟨((s.data.dropWhile pyIsSpace).reverse.dropWhile pyIsSpace).reverse⟩

/-- Python `str.split(sep)` for a one-character separator, over the
character list: every occurrence splits, empty fields are kept, and the
empty string yields `[""]`. -/
def pySplitChars (sep : Char) : List Char → List (List Char)
  | [] => [[]]
  | c :: cs =>
    match pySplitChars sep cs with
    | h :: t => if c = sep then [] :: h :: t else (c :: h) :: t
    | [] => [[c]]

/-- Python `str.split(sep)` for a one-character separator. -/
def pySplit (s : String) (sep : Char) : List String :=
  (pySplitChars sep s.data).map (fun cs => ⟨cs⟩)

/-- `sub` occurs contiguously inside `s`. -/
def containsStr (s sub : String) : Prop :=
  ∃ pre post : String, s = pre ++ sub ++ post

/-- The result of one attempt to start a child process, supplied by the
environment: either the process ran to completion with an exit status and
captured output bytes, or spawning itself failed with `str(e)` being the
given message. -/
inductive SpawnResult where
  | completed (returncode : Int) (stdout stderr : List Nat)
  | spawnFail (msg : String)

/-- The ambient world read by the server: the resolved scripts directory
(`SCRIPT_DIR`), which script files exist in it, and what happens when a
given argument vector is spawned with the given stdin text. -/
structure Env where
  scriptDir : String
  scriptExists : String → Bool
  run : List PyVal → Option String → SpawnResult

/-- A Python exception relevant to the bridge. -/
inductive PyExc where
  | calledProcessError (returncode : Int) (cmd : List PyVal) (output stderr : List Nat)
  | fileNotFoundError (msg : String)
  | unicodeDecodeError (msg : String)

/-- The fixed `str()` rendering used for a modelled `UnicodeDecodeError`
(CPython's message also names the offending byte and position; no claim
depends on that text). -/
def udeMessage : String := "\x27utf-8\x27 codec can\x27t decode bytes"

/-- Python `str()` of a modelled exception.  For `CalledProcessError` this
follows CPython's `"Command ... returned non-zero exit status ..."` shape.  -/
def pyStrExc : PyExc → String
  | .calledProcessError rc cmd _ _ =>
    "Command [" ++ String.intercalate ", " (cmd.map pyReprVal) ++
      "] returned non-zero exit status " ++ toString rc ++ "."
  | .fileNotFoundError msg => msg
  | .unicodeDecodeError msg => msg

/-- `CallToolResult`, flattened to its single `TextContent` payload: the
envelope `{is_error, text}` of the specification.  The Python constructor
defaults `isError` to `False`. -/
structure CallToolResult where
  isError : Bool
  text : String
  deriving DecidableEq, Repr

/-- `subprocess.CompletedProcess` as built by `_run_command`. -/
structure CompletedProcess where
  args : List PyVal
  returncode : Int
  stdout : List Nat
  stderr : List Nat

/-- One process spawn attempt: the argument vector handed to
`asyncio.create_subprocess_exec` and the stdin text (if any) written to
the child. -/
structure Spawn where
  argv : List PyVal
  stdin : Option String
  deriving DecidableEq, Repr

/-- What one Python handler invocation does: its outcome (a returned
`CallToolResult` or a raised exception) together with the spawn attempts
it made, in order. -/
structure HandlerOut where
  ret : Except PyExc CallToolResult
  spawns : List Spawn

/-- `GitScriptsMCP._get_script_path`: joins `SCRIPT_DIR` with the script
name and raises `FileNotFoundError` when no such file exists. -/
def getScriptPath (env : Env) (scriptName : String) : Except PyExc String :=
  let scriptPath := env.scriptDir ++ "/" ++ scriptName
  if env.scriptExists scriptName then .ok scriptPath
  else .error (.fileNotFoundError ("Script not found: " ++ scriptPath))

/-- `GitScriptsMCP._run_command`: spawns the command and captures output;
any spawn failure is re-raised as `CalledProcessError(1, cmd, str(e).encode(),
str(e).encode())`. -/
def runCommand (env : Env) (cmd : List PyVal) (inputText : Option String) :
    Except PyExc CompletedProcess :=
  match env.run cmd inputText with
  | .completed rc out err => .ok ⟨cmd, rc, out, err⟩
  | .spawnFail msg => .error (.calledProcessError 1 cmd (pyEncode msg) (pyEncode msg))

/-- The classification tail shared by the plain script handlers
(`_handle_git_undo` lines 388-401 and its siblings): exit 0 yields a
success envelope `okBanner ++ stdout.decode()`, a non-zero exit yields an
error envelope `errBanner ++ stderr.decode()`; a runner exception
propagates, and a decode failure raises `UnicodeDecodeError`. -/
def classifySimple (okBanner errBanner : String) :
    Except PyExc CompletedProcess → Except PyExc CallToolResult
  | .error e => .error e
  | .ok result =>
    if result.returncode = 0 then
      match pyDecode result.stdout with
      | some s => .ok ⟨false, okBanner ++ s⟩
      | none => .error (.unicodeDecodeError udeMessage)
    else
      match pyDecode result.stderr with
      | some s => .ok ⟨true, errBanner ++ s⟩
      | none => .error (.unicodeDecodeError udeMessage)

/-- `GitScriptsMCP._handle_git_undo`. -/
def handle_git_undo (env : Env) (args : Args) : HandlerOut :=
  match getScriptPath env "git-undo" with
  | .error e => ⟨.error e, []⟩
  | .ok scriptPath =>
    let cmd : List PyVal := [.vStr scriptPath]
    let inputText : Option String := if (pyGet args "confirm").truthy then some "y\n" else none
    ⟨classifySimple "✅ Git undo completed successfully:\n\n" "❌ Git undo failed:\n"
      (runCommand env cmd inputText), [⟨cmd, inputText⟩]⟩

/-- `GitScriptsMCP._handle_git_redo`. -/
def handle_git_redo (env : Env) (args : Args) : HandlerOut :=
  match getScriptPath env "git-redo" with
  | .error e => ⟨.error e, []⟩
  | .ok scriptPath =>
    let cmd : List PyVal :=
      [.vStr scriptPath] ++
        (if (pyGet args "message_only").truthy then [.vStr "--message-only"] else [])
    let inputText : Option String := if (pyGet args "confirm").truthy then some "y\n" else none
    ⟨classifySimple "✅ Git redo completed successfully:\n\n" "❌ Git redo failed:\n"
      (runCommand env cmd inputText), [⟨cmd, inputText⟩]⟩

/-- `GitScriptsMCP._handle_git_recommit`. -/
def handle_git_recommit (env : Env) (args : Args) : HandlerOut :=
  match getScriptPath env "git-recommit" with
  | .error e => ⟨.error e, []⟩
  | .ok scriptPath =>
    let cmd : List PyVal := [.vStr scriptPath]
    let inputText : Option String := if (pyGet args "confirm").truthy then some "y\n" else none
    ⟨classifySimple "✅ Git recommit completed successfully:\n\n" "❌ Git recommit failed:\n"
      (runCommand env cmd inputText), [⟨cmd, inputText⟩]⟩

/-- The result classification of `_handle_git_check_dup`: on success an
empty stripped stdout is replaced by a fixed message. -/
def checkDupClassify : Except PyExc CompletedProcess → Except PyExc CallToolResult
  | .error e => .error e
  | .ok result =>
    if result.returncode = 0 then
      match pyDecode result.stdout with
      | some output =>
        if pyStrip output ≠ "" then .ok ⟨false, "🔍 Duplicate commits found:\n\n" ++ output⟩
        else .ok ⟨false, "✅ No duplicate commits detected."⟩
      | none => .error (.unicodeDecodeError udeMessage)
    else
      match pyDecode result.stderr with
      | some s => .ok ⟨true, "❌ Git check-dup failed:\n" ++ s⟩
      | none => .error (.unicodeDecodeError udeMessage)

/-- `GitScriptsMCP._handle_git_check_dup`. -/
def handle_git_check_dup (env : Env) (args : Args) : HandlerOut :=
  match getScriptPath env "git-check-dup" with
  | .error e => ⟨.error e, []⟩
  | .ok scriptPath =>
    let cmd0 : List PyVal := [.vStr scriptPath]
    let cmd1 := if (pyGet args "quiet").truthy then cmd0 ++ [.vStr "--quiet"] else cmd0
    let remoteBranch := pyGetD args "remote_branch" (.vStr "origin/main")
    let cmd := if remoteBranch = PyVal.vStr "origin/main" then cmd1 else cmd1 ++ [remoteBranch]
    ⟨checkDupClassify (runCommand env cmd none), [⟨cmd, none⟩]⟩

/-- `GitScriptsMCP._handle_git_remove_redundant_commits`. -/
def handle_git_remove_redundant_commits (env : Env) (args : Args) : HandlerOut :=
  match getScriptPath env "git-remove-redundant-commits" with
  | .error e => ⟨.error e, []⟩
  | .ok scriptPath =>
    let cmd0 : List PyVal := [.vStr scriptPath]
    let ontoBranch := pyGetD args "onto_branch" (.vStr "origin/main")
    let cmd1 :=
      if ontoBranch = PyVal.vStr "origin/main" then cmd0 else cmd0 ++ [.vStr "--onto", ontoBranch]
    let cmd := if (pyGet args "apply").truthy then cmd1 ++ [.vStr "--apply"] else cmd1
    let mode := if (pyGet args "apply").truthy then "🔧 Applied changes" else "🔍 Dry-run analysis"
    ⟨classifySimple ("✅ Git remove redundant commits - " ++ mode ++ ":\n\n")
      "❌ Git remove redundant commits failed:\n" (runCommand env cmd none), [⟨cmd, none⟩]⟩

/-- `GitScriptsMCP._handle_git_branch_diff`: runs two read-only `git log`
listings (no external script, no existence check) and combines them; its
own try/except turns every raised exception into an error envelope. -/
def handle_git_branch_diff (env : Env) (args : Args) : HandlerOut :=
  let branch1 := pyGetD args "branch1" (.vStr "HEAD")
  let branch2 := pyGetD args "branch2" (.vStr "origin/main")
  let log1Cmd : List PyVal :=
    [.vStr "git", .vStr "log", .vStr "--oneline", .vStr "--max-count=20", branch1]
  let log2Cmd : List PyVal :=
    [.vStr "git", .vStr "log", .vStr "--oneline", .vStr "--max-count=20", branch2]
  match runCommand env log1Cmd none with
  | .error e => ⟨.ok ⟨true, "❌ Git branch diff failed: " ++ pyStrExc e⟩, [⟨log1Cmd, none⟩]⟩
  | .ok r1 =>
    match runCommand env log2Cmd none with
    | .error e =>
      ⟨.ok ⟨true, "❌ Git branch diff failed: " ++ pyStrExc e⟩,
        [⟨log1Cmd, none⟩, ⟨log2Cmd, none⟩]⟩
    | .ok r2 =>
      let ret : Except PyExc CallToolResult :=
        if r1.returncode = 0 ∧ r2.returncode = 0 then
          match pyDecode r1.stdout with
          | none =>
            .ok ⟨true, "❌ Git branch diff failed: " ++ pyStrExc (.unicodeDecodeError udeMessage)⟩
          | some out1 =>
            match pyDecode r2.stdout with
            | none =>
              .ok ⟨true, "❌ Git branch diff failed: " ++ pyStrExc (.unicodeDecodeError udeMessage)⟩
            | some out2 =>
              .ok ⟨false,
                "📊 Branch comparison (" ++ branch1.pyStr ++ " vs " ++ branch2.pyStr ++
                  "):\n\n=== " ++ branch1.pyStr ++ " commits ===\n" ++ out1 ++ "\n=== " ++
                  branch2.pyStr ++ " commits ===\n" ++ out2 ++
                  "\n💡 Tip: Use \x27git log --oneline --graph " ++ branch1.pyStr ++ " " ++
                  branch2.pyStr ++ "\x27 for visual graph"⟩
        else
          match pyDecode r1.stderr with
          | none =>
            .ok ⟨true, "❌ Git branch diff failed: " ++ pyStrExc (.unicodeDecodeError udeMessage)⟩
          | some s1 =>
            if s1 ≠ "" then .ok ⟨true, "❌ Git branch diff failed:\n" ++ s1⟩
            else
              match pyDecode r2.stderr with
              | none =>
                .ok ⟨true,
                  "❌ Git branch diff failed: " ++ pyStrExc (.unicodeDecodeError udeMessage)⟩
              | some s2 => .ok ⟨true, "❌ Git branch diff failed:\n" ++ s2⟩
      ⟨ret, [⟨log1Cmd, none⟩, ⟨log2Cmd, none⟩]⟩

/-- `GitScriptsMCP._handle_git_find_file`: note that the script path is
resolved before the required `pattern` argument is validated. -/
def handle_git_find_file (env : Env) (args : Args) : HandlerOut :=
  match getScriptPath env "git-find_file" with
  | .error e => ⟨.error e, []⟩
  | .ok scriptPath =>
    if !(pyGet args "pattern").truthy then
      ⟨.ok ⟨true, "❌ Error: pattern parameter is required"⟩, []⟩
    else
      let cmd : List PyVal :=
        [.vStr scriptPath, pyGet args "pattern"] ++
          (if (pyGet args "local").truthy then [.vStr "--local"] else [])
      ⟨classifySimple "🔎 Git find file results:\n\n" "❌ Git find file failed:\n"
        (runCommand env cmd none), [⟨cmd, none⟩]⟩

/-- `GitScriptsMCP._handle_git_diff_patch`: the script path is resolved
before the required commit arguments are validated. -/
def handle_git_diff_patch (env : Env) (args : Args) : HandlerOut :=
  match getScriptPath env "git-diff-patch" with
  | .error e => ⟨.error e, []⟩
  | .ok scriptPath =>
    let commit1 := pyGet args "commit1"
    let commit2 := pyGet args "commit2"
    if !commit1.truthy || !commit2.truthy then
      ⟨.ok ⟨true, "❌ Error: commit1 and commit2 are required."⟩, []⟩
    else
      let cmd : List PyVal := [.vStr scriptPath, commit1, commit2]
      ⟨classifySimple "✅ Patch comparison results:\n\n" "❌ Git diff-patch failed:\n"
        (runCommand env cmd none), [⟨cmd, none⟩]⟩

/-- The success text assembled by `_handle_git_extract_conflict_files`. -/
def extractSuccessText (tmpdir ours base theirs : String) : String :=
  "🔄 Conflict files extracted successfully:\n\n📁 Temp directory: " ++ tmpdir ++
    "\n📄 Ours file: " ++ ours ++ "\n📄 Base file: " ++ base ++ "\n📄 Theirs file: " ++ theirs ++
    "\n\n💡 Edit the \x27ours\x27 and/or \x27theirs\x27 files as needed, then use git_remerge_from_files to apply changes."

/-- The result classification of `_handle_git_extract_conflict_files`:
on success the stripped stdout is split on `":"` into
`tmpdir:ours:base:theirs`; fewer than four fields is an error. -/
def extractClassify : Except PyExc CompletedProcess → Except PyExc CallToolResult
  | .error e => .error e
  | .ok result =>
    if result.returncode = 0 then
      match pyDecode result.stdout with
      | some s =>
        let output := pyStrip s
        match pySplit output ':' with
        | tmpdir :: ours :: base :: theirs :: _ =>
          .ok ⟨false, extractSuccessText tmpdir ours base theirs⟩
        | _ => .ok ⟨true, "❌ Unexpected output format:\n" ++ output⟩
      | none => .error (.unicodeDecodeError udeMessage)
    else
      match pyDecode result.stderr with
      | some s => .ok ⟨true, "❌ Git extract conflict files failed:\n" ++ s⟩
      | none => .error (.unicodeDecodeError udeMessage)

/-- `GitScriptsMCP._handle_git_extract_conflict_files`: here the required
`file` argument is validated before the script path is resolved. -/
def handle_git_extract_conflict_files (env : Env) (args : Args) : HandlerOut :=
  let file := pyGet args "file"
  if !file.truthy then
    ⟨.ok ⟨true, "❌ Error: file parameter is required"⟩, []⟩
  else
    match getScriptPath env "git-diff-123" with
    | .error e => ⟨.error e, []⟩
    | .ok scriptPath =>
      let cmd : List PyVal := [.vStr scriptPath, .vStr "--extract", file]
      ⟨extractClassify (runCommand env cmd none), [⟨cmd, none⟩]⟩

/-- `GitScriptsMCP._handle_git_remerge_from_files`. -/
def handle_git_remerge_from_files (env : Env) (args : Args) : HandlerOut :=
  let file := pyGet args "file"
  let oursPath := pyGet args "ours_path"
  let basePath := pyGet args "base_path"
  let theirsPath := pyGet args "theirs_path"
  if !(file.truthy && oursPath.truthy && basePath.truthy && theirsPath.truthy) then
    ⟨.ok ⟨true, "❌ Error: file, ours_path, base_path, and theirs_path are all required"⟩, []⟩
  else
    match getScriptPath env "git-diff-123" with
    | .error e => ⟨.error e, []⟩
    | .ok scriptPath =>
      let cmd : List PyVal := [.vStr scriptPath, .vStr "--remerge", file, oursPath, basePath,
        theirsPath]
      ⟨classifySimple "🔧 Re-merge completed successfully:\n\n"
        "❌ Git remerge from files failed:\n" (runCommand env cmd none), [⟨cmd, none⟩]⟩

/-- The handler registry `self.handlers` (same names, same order). -/
def handlers : List (String × (Env → Args → HandlerOut)) :=
  [("git_undo", handle_git_undo),
   ("git_redo", handle_git_redo),
   ("git_recommit", handle_git_recommit),
   ("git_check_dup", handle_git_check_dup),
   ("git_remove_redundant_commits", handle_git_remove_redundant_commits),
   ("git_branch_diff", handle_git_branch_diff),
   ("git_find_file", handle_git_find_file),
   ("git_diff_patch", handle_git_diff_patch),
   ("git_extract_conflict_files", handle_git_extract_conflict_files),
   ("git_remerge_from_files", handle_git_remerge_from_files)]

/-- `self.handlers.get(name)`. -/
def findHandler : List (String × (Env → Args → HandlerOut)) → String →
    Option (Env → Args → HandlerOut)
  | [], _ => none
  | (k, h) :: rest, name => if k = name then some h else findHandler rest name

/-- The names of the tools declared in `list_tools()` (the static catalog). -/
def listToolNames : List String :=
  ["git_undo", "git_redo", "git_recommit", "git_check_dup", "git_remove_redundant_commits",
   "git_branch_diff", "git_find_file", "git_diff_patch", "git_extract_conflict_files",
   "git_remerge_from_files"]

/-- The registry keys coincide with the catalog names. -/
theorem handlers_names : handlers.map Prod.fst = listToolNames := rfl

/-- The except clauses of `call_tool`: `CalledProcessError` is rendered as
`"Git script failed: ..."` (note the nested `e.stderr.decode()` which can
itself raise), any other exception as `"Tool execution failed: ..."`. -/
def dispatchExc : PyExc → Except PyExc CallToolResult
  | .calledProcessError rc cmd out errBytes =>
    if errBytes.isEmpty then
      .ok ⟨true, "Git script failed: " ++ pyStrExc (.calledProcessError rc cmd out errBytes)⟩
    else
      match pyDecode errBytes with
      | some s => .ok ⟨true, "Git script failed: " ++ s⟩
      | none => .error (.unicodeDecodeError udeMessage)
  | e => .ok ⟨true, "Tool execution failed: " ++ pyStrExc e⟩

/-- `GitScriptsMCP.call_tool`: dispatch on the registry, unknown names get
an error envelope, exceptions raised by the handler are converted by the
except clauses. -/
def call_tool (env : Env) (name : String) (args : Args) : HandlerOut :=
  match findHandler handlers name with
  | none => ⟨.ok ⟨true, "Unknown tool: " ++ name⟩, []⟩
  | some h =>
    let r := h env args
    ⟨match r.ret with
      | .ok res => .ok res
      | .error e => dispatchExc e, r.spawns⟩

/-- The except clauses of `call_tool` turn this exception into an envelope
(rather than re-raising). -/
def dispatchOk (e : PyExc) : Prop := ∃ r, dispatchExc e = .ok r

theorem dispatchOk_fnf (m : String) : dispatchOk (.fileNotFoundError m) := ⟨_, rfl⟩

theorem dispatchOk_ude (m : String) : dispatchOk (.unicodeDecodeError m) := ⟨_, rfl⟩

theorem dispatchOk_cpe_encoded (rc : Int) (cmd : List PyVal) (out : List Nat) (msg : String) :
    dispatchOk (.calledProcessError rc cmd out (pyEncode msg)) := by
  by_cases hm : (pyEncode msg).isEmpty
  · exact ⟨_, by simp only [dispatchExc]; rw [if_pos hm]⟩
  · refine ⟨⟨true, "Git script failed: " ++ msg⟩, ?_⟩
    simp only [dispatchExc]
    rw [if_neg hm, pyDecode_pyEncode msg]

theorem runCommand_error (env : Env) (cmd : List PyVal) (inp : Option String) (e : PyExc)
    (h : runCommand env cmd inp = .error e) : dispatchOk e := by
  cases hr : env.run cmd inp with
  | completed rc out err =>
    have h1 : runCommand env cmd inp = .ok ⟨cmd, rc, out, err⟩ := by
      unfold runCommand; rw [hr]
    rw [h1] at h
    exact absurd h (by simp)
  | spawnFail msg =>
    have h1 : runCommand env cmd inp =
        .error (.calledProcessError 1 cmd (pyEncode msg) (pyEncode msg)) := by
      unfold runCommand; rw [hr]
    rw [h1] at h
    injection h with h2
    rw [← h2]
    exact dispatchOk_cpe_encoded 1 cmd (pyEncode msg) msg

theorem getScriptPath_error (env : Env) (n : String) (e : PyExc)
    (h : getScriptPath env n = .error e) : dispatchOk e := by
  simp only [getScriptPath] at h
  split at h
  · exact absurd h (by simp)
  · injection h with h2
    rw [← h2]
    exact dispatchOk_fnf _

theorem getScriptPath_ok (env : Env) (n p : String)
    (h : getScriptPath env n = .ok p) :
    p = env.scriptDir ++ "/" ++ n ∧ env.scriptExists n = true := by
  simp only [getScriptPath] at h
  split at h
  · injection h with h2
    exact ⟨h2.symm, by assumption⟩
  · exact absurd h (by simp)

theorem classifySimple_safe (okB errB : String) (env : Env) (cmd : List PyVal)
    (inp : Option String) (e : PyExc)
    (h : classifySimple okB errB (runCommand env cmd inp) = .error e) : dispatchOk e := by
  cases hr : runCommand env cmd inp with
  | error e' =>
    rw [hr] at h
    have h' : Except.error e' = Except.error e := h
    injection h' with h2
    rw [← h2]
    exact runCommand_error env cmd inp e' hr
  | ok r =>
    rw [hr] at h
    simp only [classifySimple] at h
    repeat' split at h
    all_goals first
      | (injection h with h2; rw [← h2]; exact dispatchOk_ude _)
      | exact Except.noConfusion h

theorem checkDupClassify_safe (env : Env) (cmd : List PyVal) (inp : Option String) (e : PyExc)
    (h : checkDupClassify (runCommand env cmd inp) = .error e) : dispatchOk e := by
  cases hr : runCommand env cmd inp with
  | error e' =>
    rw [hr] at h
    have h' : Except.error e' = Except.error e := h
    injection h' with h2
    rw [← h2]
    exact runCommand_error env cmd inp e' hr
  | ok r =>
    rw [hr] at h
    simp only [checkDupClassify] at h
    repeat' split at h
    all_goals first
      | (injection h with h2; rw [← h2]; exact dispatchOk_ude _)
      | exact Except.noConfusion h

theorem extractClassify_safe (env : Env) (cmd : List PyVal) (inp : Option String) (e : PyExc)
    (h : extractClassify (runCommand env cmd inp) = .error e) : dispatchOk e := by
  cases hr : runCommand env cmd inp with
  | error e' =>
    rw [hr] at h
    have h' : Except.error e' = Except.error e := h
    injection h' with h2
    rw [← h2]
    exact runCommand_error env cmd inp e' hr
  | ok r =>
    rw [hr] at h
    simp only [extractClassify] at h
    repeat' split at h
    all_goals first
      | (injection h with h2; rw [← h2]; exact dispatchOk_ude _)
      | exact Except.noConfusion h

/-- Every exception a handler invocation can raise is one `call_tool`'s
except clauses convert into an envelope. -/
def handlerSafe (ho : HandlerOut) : Prop := ∀ e, ho.ret = .error e → dispatchOk e

theorem handle_git_undo_safe (env : Env) (args : Args) :
    handlerSafe (handle_git_undo env args) := by
  intro e he
  unfold handle_git_undo at he
  cases hgs : getScriptPath env "git-undo" with
  | error e' =>
    rw [hgs] at he
    have he' : Except.error e' = Except.error e := he
    injection he' with h2
    rw [← h2]
    exact getScriptPath_error env _ _ hgs
  | ok p =>
    rw [hgs] at he
    exact classifySimple_safe _ _ env _ _ e he

theorem handle_git_redo_safe (env : Env) (args : Args) :
    handlerSafe (handle_git_redo env args) := by
  intro e he
  unfold handle_git_redo at he
  cases hgs : getScriptPath env "git-redo" with
  | error e' =>
    rw [hgs] at he
    have he' : Except.error e' = Except.error e := he
    injection he' with h2
    rw [← h2]
    exact getScriptPath_error env _ _ hgs
  | ok p =>
    rw [hgs] at he
    exact classifySimple_safe _ _ env _ _ e he

theorem handle_git_recommit_safe (env : Env) (args : Args) :
    handlerSafe (handle_git_recommit env args) := by
  intro e he
  unfold handle_git_recommit at he
  cases hgs : getScriptPath env "git-recommit" with
  | error e' =>
    rw [hgs] at he
    have he' : Except.error e' = Except.error e := he
    injection he' with h2
    rw [← h2]
    exact getScriptPath_error env _ _ hgs
  | ok p =>
    rw [hgs] at he
    exact classifySimple_safe _ _ env _ _ e he

theorem handle_git_check_dup_safe (env : Env) (args : Args) :
    handlerSafe (handle_git_check_dup env args) := by
  intro e he
  unfold handle_git_check_dup at he
  cases hgs : getScriptPath env "git-check-dup" with
  | error e' =>
    rw [hgs] at he
    have he' : Except.error e' = Except.error e := he
    injection he' with h2
    rw [← h2]
    exact getScriptPath_error env _ _ hgs
  | ok p =>
    rw [hgs] at he
    exact checkDupClassify_safe env _ _ e he

theorem handle_git_remove_redundant_commits_safe (env : Env) (args : Args) :
    handlerSafe (handle_git_remove_redundant_commits env args) := by
  intro e he
  unfold handle_git_remove_redundant_commits at he
  cases hgs : getScriptPath env "git-remove-redundant-commits" with
  | error e' =>
    rw [hgs] at he
    have he' : Except.error e' = Except.error e := he
    injection he' with h2
    rw [← h2]
    exact getScriptPath_error env _ _ hgs
  | ok p =>
    rw [hgs] at he
    exact classifySimple_safe _ _ env _ _ e he

theorem handle_git_branch_diff_safe (env : Env) (args : Args) :
    handlerSafe (handle_git_branch_diff env args) := by
  intro e he
  simp only [handle_git_branch_diff] at he
  repeat' split at he
  all_goals exact Except.noConfusion he

theorem handle_git_find_file_safe (env : Env) (args : Args) :
    handlerSafe (handle_git_find_file env args) := by
  intro e he
  unfold handle_git_find_file at he
  repeat' (first | split at he | dsimp only at he)
  all_goals
    first
      | exact classifySimple_safe _ _ env _ _ e he
      | exact extractClassify_safe env _ _ e he
      | exact Except.noConfusion he
      | (have he' : Except.error _ = Except.error e := he
         injection he' with h2
         rw [← h2]
         apply getScriptPath_error env _ _
         assumption)

theorem handle_git_diff_patch_safe (env : Env) (args : Args) :
    handlerSafe (handle_git_diff_patch env args) := by
  intro e he
  unfold handle_git_diff_patch at he
  repeat' (first | split at he | dsimp only at he)
  all_goals
    first
      | exact classifySimple_safe _ _ env _ _ e he
      | exact extractClassify_safe env _ _ e he
      | exact Except.noConfusion he
      | (have he' : Except.error _ = Except.error e := he
         injection he' with h2
         rw [← h2]
         apply getScriptPath_error env _ _
         assumption)

theorem handle_git_extract_conflict_files_safe (env : Env) (args : Args) :
    handlerSafe (handle_git_extract_conflict_files env args) := by
  intro e he
  unfold handle_git_extract_conflict_files at he
  repeat' (first | split at he | dsimp only at he)
  all_goals
    first
      | exact classifySimple_safe _ _ env _ _ e he
      | exact extractClassify_safe env _ _ e he
      | exact Except.noConfusion he
      | (have he' : Except.error _ = Except.error e := he
         injection he' with h2
         rw [← h2]
         apply getScriptPath_error env _ _
         assumption)

theorem handle_git_remerge_from_files_safe (env : Env) (args : Args) :
    handlerSafe (handle_git_remerge_from_files env args) := by
  intro e he
  unfold handle_git_remerge_from_files at he
  repeat' (first | split at he | dsimp only at he)
  all_goals
    first
      | exact classifySimple_safe _ _ env _ _ e he
      | exact extractClassify_safe env _ _ e he
      | exact Except.noConfusion he
      | (have he' : Except.error _ = Except.error e := he
         injection he' with h2
         rw [← h2]
         apply getScriptPath_error env _ _
         assumption)

theorem findHandler_safe (name : String) (h : Env → Args → HandlerOut)
    (hf : findHandler handlers name = some h) (env : Env) (args : Args) :
    handlerSafe (h env args) := by
  simp only [handlers, findHandler] at hf
  repeat' split at hf
  all_goals first
    | exact Option.noConfusion hf
    | (injection hf with h2; rw [← h2]; first
        | exact handle_git_undo_safe env args
        | exact handle_git_redo_safe env args
        | exact handle_git_recommit_safe env args
        | exact handle_git_check_dup_safe env args
        | exact handle_git_remove_redundant_commits_safe env args
        | exact handle_git_branch_diff_safe env args
        | exact handle_git_find_file_safe env args
        | exact handle_git_diff_patch_safe env args
        | exact handle_git_extract_conflict_files_safe env args
        | exact handle_git_remerge_from_files_safe env args)

/-- C1: for every tool name in the catalog and every argument mapping,
`call_tool` returns exactly one `ResultEnvelope` and never propagates an
exception to its caller: every exception raised during handling —
including a spawn/OS failure, which `_run_command` re-raises as a
`CalledProcessError` whose stderr payload is the encoded error text — is
converted into an envelope by the except clauses, for every environment,
tool name (known or not) and argument mapping. -/
theorem c1_call_tool_never_raises (env : Env) (name : String) (args : Args) :
    ∃ r, (call_tool env name args).ret = Except.ok r := by
  unfold call_tool
  cases hf : findHandler handlers name with
  | none => exact ⟨_, rfl⟩
  | some h =>
    have hs := findHandler_safe name h hf env args
    cases hr : (h env args).ret with
    | ok r =>
      refine ⟨r, ?_⟩
      dsimp only
      rw [hr]
    | error e =>
      obtain ⟨r, hd⟩ := hs e hr
      refine ⟨r, ?_⟩
      dsimp only
      rw [hr]
      show dispatchExc e = Except.ok r
      exact hd

theorem findHandler_eq_none (l : List (String × (Env → Args → HandlerOut))) (name : String)
    (h : name ∉ l.map Prod.fst) : findHandler l name = none := by
  induction l with
  | nil => rfl
  | cons p rest ih =>
    obtain ⟨k, hfun⟩ := p
    simp only [List.map_cons, List.mem_cons] at h
    push_neg at h
    simp only [findHandler]
    rw [if_neg (fun hk => h.1 hk.symm), ih h.2]

/-- C2: a name outside the static catalog yields exactly the
`"Unknown tool: {name}"` error envelope, and no spawn attempt is made. -/
theorem c2_unknown_tool (env : Env) (name : String) (args : Args)
    (h : name ∉ listToolNames) :
    call_tool env name args = ⟨.ok ⟨true, "Unknown tool: " ++ name⟩, []⟩ := by
  have hf : findHandler handlers name = none := by
    apply findHandler_eq_none
    rw [handlers_names]
    exact h
  unfold call_tool
  rw [hf]

/-- C2 witness: a concrete unknown name. -/
theorem c2_unknown_tool_witness :
    call_tool ⟨"/r", fun _ => true, fun _ _ => .completed 0 [] []⟩ "git_push" [] =
      ⟨.ok ⟨true, "Unknown tool: " ++ "git_push"⟩, []⟩ :=
  c2_unknown_tool ⟨"/r", fun _ => true, fun _ _ => .completed 0 [] []⟩ "git_push" []
    (by decide)

/-- C3 counterexample: decoding is strict, not lossy.  On captured stdout
`[0xFF]` (not valid UTF-8) the decode fails — modelling a raised
`UnicodeDecodeError` — and `git_undo`'s envelope is the dispatcher's
generic exception wrapper, not a success envelope with replacement
characters, refuting "decoding never throws / invalid bytes are
replaced". -/
theorem c3_strict_decoding_counterexample :
    pyDecode [0xFF] = none ∧
    (call_tool ⟨"/r", fun _ => true, fun _ _ => .completed 0 [0xFF] []⟩ "git_undo" []).ret =
      .ok ⟨true, "Tool execution failed: " ++ udeMessage⟩ :=
  ⟨rfl, rfl⟩

/-- C3 (amended): decoding captured output uses strict UTF-8 and fails on
invalid byte sequences; the resulting exception escapes the handler and is
converted by the dispatcher's generic except clause (or, for
`git_branch_diff`, by the handler's own catch) into a single error
envelope, for every tool. -/
theorem c3_amended_strict_decode_to_envelope :
    pyDecode [0xFF] = none ∧
    (call_tool ⟨"/r", fun _ => true, fun _ _ => .completed 0 [0xFF] [0xFF]⟩
        "git_undo" []).ret = .ok ⟨true, "Tool execution failed: " ++ udeMessage⟩ ∧
    (call_tool ⟨"/r", fun _ => true, fun _ _ => .completed 0 [0xFF] [0xFF]⟩
        "git_redo" []).ret = .ok ⟨true, "Tool execution failed: " ++ udeMessage⟩ ∧
    (call_tool ⟨"/r", fun _ => true, fun _ _ => .completed 0 [0xFF] [0xFF]⟩
        "git_recommit" []).ret = .ok ⟨true, "Tool execution failed: " ++ udeMessage⟩ ∧
    (call_tool ⟨"/r", fun _ => true, fun _ _ => .completed 0 [0xFF] [0xFF]⟩
        "git_check_dup" []).ret = .ok ⟨true, "Tool execution failed: " ++ udeMessage⟩ ∧
    (call_tool ⟨"/r", fun _ => true, fun _ _ => .completed 0 [0xFF] [0xFF]⟩
        "git_remove_redundant_commits" []).ret =
      .ok ⟨true, "Tool execution failed: " ++ udeMessage⟩ ∧
    (call_tool ⟨"/r", fun _ => true, fun _ _ => .completed 0 [0xFF] [0xFF]⟩
        "git_branch_diff" []).ret = .ok ⟨true, "❌ Git branch diff failed: " ++ udeMessage⟩ ∧
    (call_tool ⟨"/r", fun _ => true, fun _ _ => .completed 0 [0xFF] [0xFF]⟩
        "git_find_file" [("pattern", .vStr "p")]).ret =
      .ok ⟨true, "Tool execution failed: " ++ udeMessage⟩ ∧
    (call_tool ⟨"/r", fun _ => true, fun _ _ => .completed 0 [0xFF] [0xFF]⟩
        "git_diff_patch" [("commit1", .vStr "a"), ("commit2", .vStr "b")]).ret =
      .ok ⟨true, "Tool execution failed: " ++ udeMessage⟩ ∧
    (call_tool ⟨"/r", fun _ => true, fun _ _ => .completed 0 [0xFF] [0xFF]⟩
        "git_extract_conflict_files" [("file", .vStr "f")]).ret =
      .ok ⟨true, "Tool execution failed: " ++ udeMessage⟩ ∧
    (call_tool ⟨"/r", fun _ => true, fun _ _ => .completed 0 [0xFF] [0xFF]⟩
        "git_remerge_from_files" [("file", .vStr "f"), ("ours_path", .vStr "o"),
          ("base_path", .vStr "b"), ("theirs_path", .vStr "t")]).ret =
      .ok ⟨true, "Tool execution failed: " ++ udeMessage⟩ :=
  ⟨rfl, rfl, rfl, rfl, rfl, rfl, rfl, rfl, rfl, rfl, rfl⟩

/-- C4 counterexample: on a non-zero exit the envelope text is not the
decoded stderr — it is prefixed by the tool-specific failure banner. -/
theorem c4_error_text_counterexample :
    (call_tool ⟨"/r", fun _ => true, fun _ _ => .completed 1 [] [98, 111, 111, 109]⟩
        "git_undo" []).ret = .ok ⟨true, "❌ Git undo failed:\nboom"⟩ ∧
    pyDecode [98, 111, 111, 109] = some "boom" ∧
    "❌ Git undo failed:\nboom" ≠ "boom" :=
  ⟨rfl, rfl, by decide⟩

/-- An environment whose script files all exist and in which every spawn
completes with the given exit status and output bytes. -/
def mkConstEnv (dir : String) (rc : Int) (out err : List Nat) : Env :=
  ⟨dir, fun _ => true, fun _ _ => .completed rc out err⟩

theorem classifySimple_err (okB errB : String) (a : List PyVal) (rc : Int) (out err : List Nat)
    (s : String) (hrc : ¬ rc = 0) (herr : pyDecode err = some s) :
    classifySimple okB errB (.ok ⟨a, rc, out, err⟩) = .ok ⟨true, errB ++ s⟩ := by
  simp only [classifySimple]
  rw [if_neg hrc, herr]

theorem classifySimple_okCase (okB errB : String) (a : List PyVal) (out err : List Nat)
    (s : String) (hout : pyDecode out = some s) :
    classifySimple okB errB (.ok ⟨a, 0, out, err⟩) = .ok ⟨false, okB ++ s⟩ := by
  simp only [classifySimple, if_true]
  rw [hout]

theorem checkDupClassify_okCase (a : List PyVal) (out err : List Nat) (s : String)
    (hout : pyDecode out = some s) :
    checkDupClassify (.ok ⟨a, 0, out, err⟩) =
      .ok ⟨false, if pyStrip s ≠ "" then "🔍 Duplicate commits found:\n\n" ++ s
        else "✅ No duplicate commits detected."⟩ := by
  simp only [checkDupClassify, if_true]
  rw [hout]
  dsimp only
  by_cases hs : pyStrip s ≠ ""
  · rw [if_pos hs, if_pos hs]
  · rw [if_neg hs, if_neg hs]

theorem checkDupClassify_err (a : List PyVal) (rc : Int) (out err : List Nat)
    (s : String) (hrc : ¬ rc = 0) (herr : pyDecode err = some s) :
    checkDupClassify (.ok ⟨a, rc, out, err⟩) = .ok ⟨true, "❌ Git check-dup failed:\n" ++ s⟩ := by
  simp only [checkDupClassify]
  rw [if_neg hrc, herr]

theorem extractClassify_err (a : List PyVal) (rc : Int) (out err : List Nat)
    (s : String) (hrc : ¬ rc = 0) (herr : pyDecode err = some s) :
    extractClassify (.ok ⟨a, rc, out, err⟩) =
      .ok ⟨true, "❌ Git extract conflict files failed:\n" ++ s⟩ := by
  simp only [extractClassify]
  rw [if_neg hrc, herr]


theorem call_tool_ret_ok (env : Env) (name : String) (args : Args)
    (h : Env → Args → HandlerOut) (r : CallToolResult)
    (hf : findHandler handlers name = some h) (hr : (h env args).ret = .ok r) :
    (call_tool env name args).ret = .ok r := by
  unfold call_tool
  rw [hf]
  dsimp only
  rw [hr]

theorem call_tool_ret_error (env : Env) (name : String) (args : Args)
    (h : Env → Args → HandlerOut) (e : PyExc)
    (hf : findHandler handlers name = some h) (hr : (h env args).ret = .error e) :
    (call_tool env name args).ret = dispatchExc e := by
  unfold call_tool
  rw [hf]
  dsimp only
  rw [hr]

theorem call_tool_spawns (env : Env) (name : String) (args : Args)
    (h : Env → Args → HandlerOut) (hf : findHandler handlers name = some h) :
    (call_tool env name args).spawns = (h env args).spawns := by
  unfold call_tool
  rw [hf]

/-- C4 (amended): given an outcome with non-zero exit, every script
tool's Result Classifier produces an error envelope whose text is the
tool-specific failure banner followed by the decoded stderr (the banner
alone when stderr is empty); given exit 0, the plain tools produce a
success envelope whose text is the tool banner followed by the decoded
stdout, while `git_check_dup` substitutes a fixed message when the
stripped stdout is empty (`git_extract_conflict_files` instead parses its
stdout into fields; see the C6 theorem). -/
theorem c4_amended_banner_classification (dir : String) (rc : Int) (out err : List Nat)
    (sOut sErr : String) (hrc : ¬ rc = 0)
    (hout : pyDecode out = some sOut) (herr : pyDecode err = some sErr) :
    ((call_tool (mkConstEnv dir rc out err) "git_undo" []).ret =
        .ok ⟨true, "❌ Git undo failed:\n" ++ sErr⟩ ∧
      (call_tool (mkConstEnv dir rc out err) "git_redo" []).ret =
        .ok ⟨true, "❌ Git redo failed:\n" ++ sErr⟩ ∧
      (call_tool (mkConstEnv dir rc out err) "git_recommit" []).ret =
        .ok ⟨true, "❌ Git recommit failed:\n" ++ sErr⟩ ∧
      (call_tool (mkConstEnv dir rc out err) "git_check_dup" []).ret =
        .ok ⟨true, "❌ Git check-dup failed:\n" ++ sErr⟩ ∧
      (call_tool (mkConstEnv dir rc out err) "git_remove_redundant_commits" []).ret =
        .ok ⟨true, "❌ Git remove redundant commits failed:\n" ++ sErr⟩ ∧
      (call_tool (mkConstEnv dir rc out err) "git_find_file" [("pattern", .vStr "p")]).ret =
        .ok ⟨true, "❌ Git find file failed:\n" ++ sErr⟩ ∧
      (call_tool (mkConstEnv dir rc out err) "git_diff_patch"
          [("commit1", .vStr "a"), ("commit2", .vStr "b")]).ret =
        .ok ⟨true, "❌ Git diff-patch failed:\n" ++ sErr⟩ ∧
      (call_tool (mkConstEnv dir rc out err) "git_extract_conflict_files"
          [("file", .vStr "f")]).ret =
        .ok ⟨true, "❌ Git extract conflict files failed:\n" ++ sErr⟩ ∧
      (call_tool (mkConstEnv dir rc out err) "git_remerge_from_files"
          [("file", .vStr "f"), ("ours_path", .vStr "o"), ("base_path", .vStr "b"),
            ("theirs_path", .vStr "t")]).ret =
        .ok ⟨true, "❌ Git remerge from files failed:\n" ++ sErr⟩) ∧
    ((call_tool (mkConstEnv dir 0 out err) "git_undo" []).ret =
        .ok ⟨false, "✅ Git undo completed successfully:\n\n" ++ sOut⟩ ∧
      (call_tool (mkConstEnv dir 0 out err) "git_redo" []).ret =
        .ok ⟨false, "✅ Git redo completed successfully:\n\n" ++ sOut⟩ ∧
      (call_tool (mkConstEnv dir 0 out err) "git_recommit" []).ret =
        .ok ⟨false, "✅ Git recommit completed successfully:\n\n" ++ sOut⟩ ∧
      (call_tool (mkConstEnv dir 0 out err) "git_remove_redundant_commits" []).ret =
        .ok ⟨false, "✅ Git remove redundant commits - 🔍 Dry-run analysis:\n\n" ++ sOut⟩ ∧
      (call_tool (mkConstEnv dir 0 out err) "git_find_file" [("pattern", .vStr "p")]).ret =
        .ok ⟨false, "🔎 Git find file results:\n\n" ++ sOut⟩ ∧
      (call_tool (mkConstEnv dir 0 out err) "git_diff_patch"
          [("commit1", .vStr "a"), ("commit2", .vStr "b")]).ret =
        .ok ⟨false, "✅ Patch comparison results:\n\n" ++ sOut⟩ ∧
      (call_tool (mkConstEnv dir 0 out err) "git_remerge_from_files"
          [("file", .vStr "f"), ("ours_path", .vStr "o"), ("base_path", .vStr "b"),
            ("theirs_path", .vStr "t")]).ret =
        .ok ⟨false, "🔧 Re-merge completed successfully:\n\n" ++ sOut⟩) ∧
    (call_tool (mkConstEnv dir 0 out err) "git_check_dup" []).ret =
      .ok ⟨false, if pyStrip sOut ≠ "" then "🔍 Duplicate commits found:\n\n" ++ sOut
        else "✅ No duplicate commits detected."⟩ := by
  refine ⟨⟨?_, ?_, ?_, ?_, ?_, ?_, ?_, ?_, ?_⟩, ⟨?_, ?_, ?_, ?_, ?_, ?_, ?_⟩, ?_⟩
  · refine call_tool_ret_ok _ _ _ _ _ rfl ?_
    show classifySimple "✅ Git undo completed successfully:\n\n" "❌ Git undo failed:\n"
        (Except.ok ⟨[.vStr (dir ++ "/" ++ "git-undo")], rc, out, err⟩) = _
    exact classifySimple_err _ _ _ rc out err sErr hrc herr
  · refine call_tool_ret_ok _ _ _ _ _ rfl ?_
    show classifySimple "✅ Git redo completed successfully:\n\n" "❌ Git redo failed:\n"
        (Except.ok ⟨[.vStr (dir ++ "/" ++ "git-redo")], rc, out, err⟩) = _
    exact classifySimple_err _ _ _ rc out err sErr hrc herr
  · refine call_tool_ret_ok _ _ _ _ _ rfl ?_
    show classifySimple "✅ Git recommit completed successfully:\n\n" "❌ Git recommit failed:\n"
        (Except.ok ⟨[.vStr (dir ++ "/" ++ "git-recommit")], rc, out, err⟩) = _
    exact classifySimple_err _ _ _ rc out err sErr hrc herr
  · refine call_tool_ret_ok _ _ _ _ _ rfl ?_
    show checkDupClassify
        (Except.ok ⟨[.vStr (dir ++ "/" ++ "git-check-dup")], rc, out, err⟩) = _
    exact checkDupClassify_err _ rc out err sErr hrc herr
  · refine call_tool_ret_ok _ _ _ _ _ rfl ?_
    show classifySimple ("✅ Git remove redundant commits - " ++ "🔍 Dry-run analysis" ++ ":\n\n")
        "❌ Git remove redundant commits failed:\n"
        (Except.ok ⟨[.vStr (dir ++ "/" ++ "git-remove-redundant-commits")], rc, out, err⟩) = _
    exact classifySimple_err _ _ _ rc out err sErr hrc herr
  · refine call_tool_ret_ok _ _ _ _ _ rfl ?_
    show classifySimple "🔎 Git find file results:\n\n" "❌ Git find file failed:\n"
        (Except.ok ⟨[.vStr (dir ++ "/" ++ "git-find_file"), .vStr "p"], rc, out, err⟩) = _
    exact classifySimple_err _ _ _ rc out err sErr hrc herr
  · refine call_tool_ret_ok _ _ _ _ _ rfl ?_
    show classifySimple "✅ Patch comparison results:\n\n" "❌ Git diff-patch failed:\n"
        (Except.ok ⟨[.vStr (dir ++ "/" ++ "git-diff-patch"), .vStr "a", .vStr "b"],
          rc, out, err⟩) = _
    exact classifySimple_err _ _ _ rc out err sErr hrc herr
  · refine call_tool_ret_ok _ _ _ _ _ rfl ?_
    show extractClassify
        (Except.ok ⟨[.vStr (dir ++ "/" ++ "git-diff-123"), .vStr "--extract", .vStr "f"],
          rc, out, err⟩) = _
    exact extractClassify_err _ rc out err sErr hrc herr
  · refine call_tool_ret_ok _ _ _ _ _ rfl ?_
    show classifySimple "🔧 Re-merge completed successfully:\n\n"
        "❌ Git remerge from files failed:\n"
        (Except.ok ⟨[.vStr (dir ++ "/" ++ "git-diff-123"), .vStr "--remerge", .vStr "f",
          .vStr "o", .vStr "b", .vStr "t"], rc, out, err⟩) = _
    exact classifySimple_err _ _ _ rc out err sErr hrc herr
  · refine call_tool_ret_ok _ _ _ _ _ rfl ?_
    show classifySimple "✅ Git undo completed successfully:\n\n" "❌ Git undo failed:\n"
        (Except.ok ⟨[.vStr (dir ++ "/" ++ "git-undo")], 0, out, err⟩) = _
    exact classifySimple_okCase _ _ _ out err sOut hout
  · refine call_tool_ret_ok _ _ _ _ _ rfl ?_
    show classifySimple "✅ Git redo completed successfully:\n\n" "❌ Git redo failed:\n"
        (Except.ok ⟨[.vStr (dir ++ "/" ++ "git-redo")], 0, out, err⟩) = _
    exact classifySimple_okCase _ _ _ out err sOut hout
  · refine call_tool_ret_ok _ _ _ _ _ rfl ?_
    show classifySimple "✅ Git recommit completed successfully:\n\n" "❌ Git recommit failed:\n"
        (Except.ok ⟨[.vStr (dir ++ "/" ++ "git-recommit")], 0, out, err⟩) = _
    exact classifySimple_okCase _ _ _ out err sOut hout
  · refine call_tool_ret_ok _ _ _ _ _ rfl ?_
    show classifySimple ("✅ Git remove redundant commits - " ++ "🔍 Dry-run analysis" ++ ":\n\n")
        "❌ Git remove redundant commits failed:\n"
        (Except.ok ⟨[.vStr (dir ++ "/" ++ "git-remove-redundant-commits")], 0, out, err⟩) = _
    exact classifySimple_okCase _ _ _ out err sOut hout
  · refine call_tool_ret_ok _ _ _ _ _ rfl ?_
    show classifySimple "🔎 Git find file results:\n\n" "❌ Git find file failed:\n"
        (Except.ok ⟨[.vStr (dir ++ "/" ++ "git-find_file"), .vStr "p"], 0, out, err⟩) = _
    exact classifySimple_okCase _ _ _ out err sOut hout
  · refine call_tool_ret_ok _ _ _ _ _ rfl ?_
    show classifySimple "✅ Patch comparison results:\n\n" "❌ Git diff-patch failed:\n"
        (Except.ok ⟨[.vStr (dir ++ "/" ++ "git-diff-patch"), .vStr "a", .vStr "b"],
          0, out, err⟩) = _
    exact classifySimple_okCase _ _ _ out err sOut hout
  · refine call_tool_ret_ok _ _ _ _ _ rfl ?_
    show classifySimple "🔧 Re-merge completed successfully:\n\n"
        "❌ Git remerge from files failed:\n"
        (Except.ok ⟨[.vStr (dir ++ "/" ++ "git-diff-123"), .vStr "--remerge", .vStr "f",
          .vStr "o", .vStr "b", .vStr "t"], 0, out, err⟩) = _
    exact classifySimple_okCase _ _ _ out err sOut hout
  · refine call_tool_ret_ok _ _ _ _ _ rfl ?_
    show checkDupClassify
        (Except.ok ⟨[.vStr (dir ++ "/" ++ "git-check-dup")], 0, out, err⟩) = _
    exact checkDupClassify_okCase _ out err sOut hout

/-- C4 witness: the amended classification at a concrete failing and a
concrete succeeding outcome. -/
theorem c4_amended_banner_classification_witness :
    (call_tool (mkConstEnv "/r" 1 (pyEncode "dup") (pyEncode "boom")) "git_undo" []).ret =
      .ok ⟨true, "❌ Git undo failed:\n" ++ "boom"⟩ ∧
    (call_tool (mkConstEnv "/r" 0 (pyEncode "dup") (pyEncode "boom")) "git_check_dup" []).ret =
      .ok ⟨false, if pyStrip "dup" ≠ "" then "🔍 Duplicate commits found:\n\n" ++ "dup"
        else "✅ No duplicate commits detected."⟩ := by
  have h := c4_amended_banner_classification "/r" 1 (pyEncode "dup") (pyEncode "boom")
    "dup" "boom" (by decide) (pyDecode_pyEncode "dup") (pyDecode_pyEncode "boom")
  exact ⟨h.1.1, h.2.2⟩

/-- The external script each tool resolves via `_get_script_path`
(`git_branch_diff` resolves none and runs plain `git`). -/
def scriptNameOf : String → Option String
  | "git_undo" => some "git-undo"
  | "git_redo" => some "git-redo"
  | "git_recommit" => some "git-recommit"
  | "git_check_dup" => some "git-check-dup"
  | "git_remove_redundant_commits" => some "git-remove-redundant-commits"
  | "git_find_file" => some "git-find_file"
  | "git_diff_patch" => some "git-diff-patch"
  | "git_extract_conflict_files" => some "git-diff-123"
  | "git_remerge_from_files" => some "git-diff-123"
  | _ => none

theorem handle_git_undo_spawns (env : Env) (args : Args) (sp : Spawn)
    (hm : sp ∈ (handle_git_undo env args).spawns) :
    sp.argv.head? = some (.vStr (env.scriptDir ++ "/" ++ "git-undo")) ∧
      env.scriptExists "git-undo" = true := by
  unfold handle_git_undo at hm
  repeat' (first | split at hm | dsimp only at hm)
  all_goals first
    | exact absurd hm (List.not_mem_nil _)
    | (simp only [List.mem_singleton] at hm
       subst hm
       obtain ⟨hp, hex⟩ := getScriptPath_ok env _ _ (by assumption)
       subst hp
       refine ⟨?_, hex⟩
       rfl)

theorem handle_git_redo_spawns (env : Env) (args : Args) (sp : Spawn)
    (hm : sp ∈ (handle_git_redo env args).spawns) :
    sp.argv.head? = some (.vStr (env.scriptDir ++ "/" ++ "git-redo")) ∧
      env.scriptExists "git-redo" = true := by
  unfold handle_git_redo at hm
  repeat' (first | split at hm | dsimp only at hm)
  all_goals first
    | exact absurd hm (List.not_mem_nil _)
    | (simp only [List.mem_singleton] at hm
       subst hm
       obtain ⟨hp, hex⟩ := getScriptPath_ok env _ _ (by assumption)
       subst hp
       refine ⟨?_, hex⟩
       rfl)

theorem handle_git_recommit_spawns (env : Env) (args : Args) (sp : Spawn)
    (hm : sp ∈ (handle_git_recommit env args).spawns) :
    sp.argv.head? = some (.vStr (env.scriptDir ++ "/" ++ "git-recommit")) ∧
      env.scriptExists "git-recommit" = true := by
  unfold handle_git_recommit at hm
  repeat' (first | split at hm | dsimp only at hm)
  all_goals first
    | exact absurd hm (List.not_mem_nil _)
    | (simp only [List.mem_singleton] at hm
       subst hm
       obtain ⟨hp, hex⟩ := getScriptPath_ok env _ _ (by assumption)
       subst hp
       refine ⟨?_, hex⟩
       rfl)

theorem handle_git_check_dup_spawns (env : Env) (args : Args) (sp : Spawn)
    (hm : sp ∈ (handle_git_check_dup env args).spawns) :
    sp.argv.head? = some (.vStr (env.scriptDir ++ "/" ++ "git-check-dup")) ∧
      env.scriptExists "git-check-dup" = true := by
  unfold handle_git_check_dup at hm
  repeat' (first | split at hm | dsimp only at hm)
  all_goals first
    | exact absurd hm (List.not_mem_nil _)
    | (simp only [List.mem_singleton] at hm
       subst hm
       obtain ⟨hp, hex⟩ := getScriptPath_ok env _ _ (by assumption)
       subst hp
       refine ⟨?_, hex⟩
       rfl)

theorem handle_git_remove_redundant_commits_spawns (env : Env) (args : Args) (sp : Spawn)
    (hm : sp ∈ (handle_git_remove_redundant_commits env args).spawns) :
    sp.argv.head? = some (.vStr (env.scriptDir ++ "/" ++ "git-remove-redundant-commits")) ∧
      env.scriptExists "git-remove-redundant-commits" = true := by
  unfold handle_git_remove_redundant_commits at hm
  repeat' (first | split at hm | dsimp only at hm)
  all_goals first
    | exact absurd hm (List.not_mem_nil _)
    | (simp only [List.mem_singleton] at hm
       subst hm
       obtain ⟨hp, hex⟩ := getScriptPath_ok env _ _ (by assumption)
       subst hp
       refine ⟨?_, hex⟩
       rfl)

theorem handle_git_find_file_spawns (env : Env) (args : Args) (sp : Spawn)
    (hm : sp ∈ (handle_git_find_file env args).spawns) :
    sp.argv.head? = some (.vStr (env.scriptDir ++ "/" ++ "git-find_file")) ∧
      env.scriptExists "git-find_file" = true := by
  unfold handle_git_find_file at hm
  repeat' (first | split at hm | dsimp only at hm)
  all_goals first
    | exact absurd hm (List.not_mem_nil _)
    | (simp only [List.mem_singleton] at hm
       subst hm
       obtain ⟨hp, hex⟩ := getScriptPath_ok env _ _ (by assumption)
       subst hp
       refine ⟨?_, hex⟩
       rfl)

theorem handle_git_diff_patch_spawns (env : Env) (args : Args) (sp : Spawn)
    (hm : sp ∈ (handle_git_diff_patch env args).spawns) :
    sp.argv.head? = some (.vStr (env.scriptDir ++ "/" ++ "git-diff-patch")) ∧
      env.scriptExists "git-diff-patch" = true := by
  unfold handle_git_diff_patch at hm
  repeat' (first | split at hm | dsimp only at hm)
  all_goals first
    | exact absurd hm (List.not_mem_nil _)
    | (simp only [List.mem_singleton] at hm
       subst hm
       obtain ⟨hp, hex⟩ := getScriptPath_ok env _ _ (by assumption)
       subst hp
       refine ⟨?_, hex⟩
       rfl)

theorem handle_git_extract_conflict_files_spawns (env : Env) (args : Args) (sp : Spawn)
    (hm : sp ∈ (handle_git_extract_conflict_files env args).spawns) :
    sp.argv.head? = some (.vStr (env.scriptDir ++ "/" ++ "git-diff-123")) ∧
      env.scriptExists "git-diff-123" = true := by
  unfold handle_git_extract_conflict_files at hm
  repeat' (first | split at hm | dsimp only at hm)
  all_goals first
    | exact absurd hm (List.not_mem_nil _)
    | (simp only [List.mem_singleton] at hm
       subst hm
       obtain ⟨hp, hex⟩ := getScriptPath_ok env _ _ (by assumption)
       subst hp
       refine ⟨?_, hex⟩
       rfl)

theorem handle_git_remerge_from_files_spawns (env : Env) (args : Args) (sp : Spawn)
    (hm : sp ∈ (handle_git_remerge_from_files env args).spawns) :
    sp.argv.head? = some (.vStr (env.scriptDir ++ "/" ++ "git-diff-123")) ∧
      env.scriptExists "git-diff-123" = true := by
  unfold handle_git_remerge_from_files at hm
  repeat' (first | split at hm | dsimp only at hm)
  all_goals first
    | exact absurd hm (List.not_mem_nil _)
    | (simp only [List.mem_singleton] at hm
       subst hm
       obtain ⟨hp, hex⟩ := getScriptPath_ok env _ _ (by assumption)
       subst hp
       refine ⟨?_, hex⟩
       rfl)


/-- C5 counterexample: `git_branch_diff` reaches process execution with
argv starting with the bare token `"git"`, which is not a path under the
resolved script directory and whose existence was never verified — in
this environment no existence check can succeed at all, yet two spawns
happen. -/
theorem c5_branch_diff_counterexample :
    (call_tool ⟨"/r", fun _ => false, fun _ _ => .completed 0 [] []⟩
        "git_branch_diff" []).spawns =
      [⟨[.vStr "git", .vStr "log", .vStr "--oneline", .vStr "--max-count=20", .vStr "HEAD"],
        none⟩,
       ⟨[.vStr "git", .vStr "log", .vStr "--oneline", .vStr "--max-count=20",
          .vStr "origin/main"], none⟩] ∧
    "git".data.take 3 ≠ "/r/".data ∧
    (Env.scriptExists ⟨"/r", fun _ => false, fun _ _ => .completed 0 [] []⟩) "git" = false :=
  ⟨rfl, by decide, rfl⟩

/-- C5 (amended): for every tool that resolves an external script — all
of them except `git_branch_diff` — every spawn attempt made during the
invocation has a non-empty argv whose first element is the resolved path
of that script, whose existence was verified during the same invocation. -/
theorem c5_amended_argv_head_verified (env : Env) (name sname : String) (args : Args)
    (sp : Spawn) (hs : scriptNameOf name = some sname)
    (hm : sp ∈ (call_tool env name args).spawns) :
    sp.argv.head? = some (.vStr (env.scriptDir ++ "/" ++ sname)) ∧
      env.scriptExists sname = true := by
  unfold scriptNameOf at hs
  split at hs
  · injection hs with h2
    subst h2
    rw [call_tool_spawns env "git_undo" args handle_git_undo rfl] at hm
    exact handle_git_undo_spawns env args sp hm
  · injection hs with h2
    subst h2
    rw [call_tool_spawns env "git_redo" args handle_git_redo rfl] at hm
    exact handle_git_redo_spawns env args sp hm
  · injection hs with h2
    subst h2
    rw [call_tool_spawns env "git_recommit" args handle_git_recommit rfl] at hm
    exact handle_git_recommit_spawns env args sp hm
  · injection hs with h2
    subst h2
    rw [call_tool_spawns env "git_check_dup" args handle_git_check_dup rfl] at hm
    exact handle_git_check_dup_spawns env args sp hm
  · injection hs with h2
    subst h2
    rw [call_tool_spawns env "git_remove_redundant_commits" args handle_git_remove_redundant_commits rfl] at hm
    exact handle_git_remove_redundant_commits_spawns env args sp hm
  · injection hs with h2
    subst h2
    rw [call_tool_spawns env "git_find_file" args handle_git_find_file rfl] at hm
    exact handle_git_find_file_spawns env args sp hm
  · injection hs with h2
    subst h2
    rw [call_tool_spawns env "git_diff_patch" args handle_git_diff_patch rfl] at hm
    exact handle_git_diff_patch_spawns env args sp hm
  · injection hs with h2
    subst h2
    rw [call_tool_spawns env "git_extract_conflict_files" args handle_git_extract_conflict_files rfl] at hm
    exact handle_git_extract_conflict_files_spawns env args sp hm
  · injection hs with h2
    subst h2
    rw [call_tool_spawns env "git_remerge_from_files" args handle_git_remerge_from_files rfl] at hm
    exact handle_git_remerge_from_files_spawns env args sp hm
  · exact Option.noConfusion hs

/-- C5 witness: the invariant at a concrete environment and spawn. -/
theorem c5_amended_argv_head_verified_witness :
    (Spawn.mk [PyVal.vStr ("/r" ++ "/" ++ "git-undo")] none).argv.head? =
      some (.vStr (Env.scriptDir ⟨"/r", fun _ => true, fun _ _ => .completed 0 [] []⟩ ++
        "/" ++ "git-undo")) ∧
    (Env.scriptExists ⟨"/r", fun _ => true, fun _ _ => .completed 0 [] []⟩) "git-undo" = true :=
  c5_amended_argv_head_verified ⟨"/r", fun _ => true, fun _ _ => .completed 0 [] []⟩
    "git_undo" "git-undo" [] ⟨[PyVal.vStr ("/r" ++ "/" ++ "git-undo")], none⟩ rfl
    (by simp [call_tool, handlers, findHandler, handle_git_undo, getScriptPath, pyGet, pyLookup,
      PyVal.truthy])

theorem strAppend_assoc (a b c : String) : a ++ b ++ c = a ++ (b ++ c) := by
  cases a with
  | mk da =>
    cases b with
    | mk db =>
      cases c with
      | mk dc =>
        show String.mk ((da ++ db) ++ dc) = String.mk (da ++ (db ++ dc))
        rw [List.append_assoc]

theorem extractSuccessText_contains (t o b th : String) :
    containsStr (extractSuccessText t o b th) t ∧
    containsStr (extractSuccessText t o b th) o ∧
    containsStr (extractSuccessText t o b th) b ∧
    containsStr (extractSuccessText t o b th) th := by
  refine ⟨⟨"🔄 Conflict files extracted successfully:\n\n📁 Temp directory: ",
      "\n📄 Ours file: " ++ o ++ "\n📄 Base file: " ++ b ++ "\n📄 Theirs file: " ++ th ++
        "\n\n💡 Edit the \x27ours\x27 and/or \x27theirs\x27 files as needed, then use git_remerge_from_files to apply changes.", ?_⟩,
    ⟨"🔄 Conflict files extracted successfully:\n\n📁 Temp directory: " ++ t ++
        "\n📄 Ours file: ",
      "\n📄 Base file: " ++ b ++ "\n📄 Theirs file: " ++ th ++
        "\n\n💡 Edit the \x27ours\x27 and/or \x27theirs\x27 files as needed, then use git_remerge_from_files to apply changes.", ?_⟩,
    ⟨"🔄 Conflict files extracted successfully:\n\n📁 Temp directory: " ++ t ++
        "\n📄 Ours file: " ++ o ++ "\n📄 Base file: ",
      "\n📄 Theirs file: " ++ th ++
        "\n\n💡 Edit the \x27ours\x27 and/or \x27theirs\x27 files as needed, then use git_remerge_from_files to apply changes.", ?_⟩,
    ⟨"🔄 Conflict files extracted successfully:\n\n📁 Temp directory: " ++ t ++
        "\n📄 Ours file: " ++ o ++ "\n📄 Base file: " ++ b ++ "\n📄 Theirs file: ",
      "\n\n💡 Edit the \x27ours\x27 and/or \x27theirs\x27 files as needed, then use git_remerge_from_files to apply changes.", ?_⟩⟩ <;>
    simp only [extractSuccessText, strAppend_assoc]

theorem extract_handler_ret (env : Env) (f : String) (hf : f ≠ "")
    (hex : env.scriptExists "git-diff-123" = true) :
    (handle_git_extract_conflict_files env [("file", .vStr f)]).ret =
      extractClassify (runCommand env
        [.vStr (env.scriptDir ++ "/" ++ "git-diff-123"), .vStr "--extract", .vStr f] none) := by
  have hcond : ¬((!(PyVal.vStr f).truthy) = true) := by simp [PyVal.truthy, hf]
  have hgs : getScriptPath env "git-diff-123" =
      .ok (env.scriptDir ++ "/" ++ "git-diff-123") := by
    simp [getScriptPath, hex]
  simp only [handle_git_extract_conflict_files]
  rw [show pyGet [("file", PyVal.vStr f)] "file" = PyVal.vStr f from rfl]
  rw [if_neg hcond, hgs]

/-- C6: on a successful `git_extract_conflict_files` run, if the stripped
stdout splits on `":"` into at least four fields the success envelope
contains all four of them (temp directory, ours, base, theirs); with
fewer than four fields the result is an error envelope containing
"Unexpected output format". -/
theorem c6_extract_conflict_files_parse (env : Env) (f : String) (out err : List Nat)
    (s t o b th : String) (rest : List String)
    (hf : f ≠ "")
    (hex : env.scriptExists "git-diff-123" = true)
    (hrun : env.run
      [.vStr (env.scriptDir ++ "/" ++ "git-diff-123"), .vStr "--extract", .vStr f] none =
        .completed 0 out err)
    (hdec : pyDecode out = some s) :
    (pySplit (pyStrip s) ':' = t :: o :: b :: th :: rest →
      (call_tool env "git_extract_conflict_files" [("file", .vStr f)]).ret =
          .ok ⟨false, extractSuccessText t o b th⟩ ∧
        containsStr (extractSuccessText t o b th) t ∧
        containsStr (extractSuccessText t o b th) o ∧
        containsStr (extractSuccessText t o b th) b ∧
        containsStr (extractSuccessText t o b th) th) ∧
    ((pySplit (pyStrip s) ':').length < 4 →
      (call_tool env "git_extract_conflict_files" [("file", .vStr f)]).ret =
          .ok ⟨true, "❌ Unexpected output format:\n" ++ pyStrip s⟩ ∧
        containsStr ("❌ Unexpected output format:\n" ++ pyStrip s)
          "Unexpected output format") := by
  have hruncmd : runCommand env
      [.vStr (env.scriptDir ++ "/" ++ "git-diff-123"), .vStr "--extract", .vStr f] none =
        .ok ⟨[.vStr (env.scriptDir ++ "/" ++ "git-diff-123"), .vStr "--extract", .vStr f],
          0, out, err⟩ := by
    unfold runCommand
    rw [hrun]
  constructor
  · intro h4
    have hhandler : (handle_git_extract_conflict_files env [("file", .vStr f)]).ret =
        .ok ⟨false, extractSuccessText t o b th⟩ := by
      rw [extract_handler_ret env f hf hex, hruncmd]
      simp only [extractClassify, if_true]
      rw [hdec]
      dsimp only
      rw [h4]
    exact ⟨call_tool_ret_ok env _ _ handle_git_extract_conflict_files _ rfl hhandler,
      extractSuccessText_contains t o b th⟩
  · intro hlen
    have hfall : ∀ l : List String, l.length < 4 →
        (match l with
          | tmpdir :: ours :: base :: theirs :: _ =>
            (Except.ok ⟨false, extractSuccessText tmpdir ours base theirs⟩ :
              Except PyExc CallToolResult)
          | _ => .ok ⟨true, "❌ Unexpected output format:\n" ++ pyStrip s⟩) =
          .ok ⟨true, "❌ Unexpected output format:\n" ++ pyStrip s⟩ := by
      intro l hl
      rcases l with _ | ⟨a1, _ | ⟨a2, _ | ⟨a3, _ | ⟨a4, tt⟩⟩⟩⟩
      · rfl
      · rfl
      · rfl
      · rfl
      · exfalso
        simp only [List.length_cons] at hl
        omega
    have hhandler : (handle_git_extract_conflict_files env [("file", .vStr f)]).ret =
        .ok ⟨true, "❌ Unexpected output format:\n" ++ pyStrip s⟩ := by
      rw [extract_handler_ret env f hf hex, hruncmd]
      simp only [extractClassify, if_true]
      rw [hdec]
      dsimp only
      exact hfall (pySplit (pyStrip s) ':') hlen
    refine ⟨call_tool_ret_ok env _ _ handle_git_extract_conflict_files _ rfl hhandler,
      ⟨"❌ ", ":\n" ++ pyStrip s, ?_⟩⟩
    rw [strAppend_assoc]
    rfl

/-- C6 witness: the four-field success case on the concrete stdout from
the specification, applied at a concrete environment. -/
theorem c6_extract_conflict_files_parse_witness :
    (call_tool ⟨"/r", fun _ => true,
        fun _ _ => .completed 0
          (pyEncode "/tmp/x:/tmp/x/ours:/tmp/x/base:/tmp/x/theirs\n") []⟩
      "git_extract_conflict_files" [("file", .vStr "c.txt")]).ret =
        .ok ⟨false, extractSuccessText "/tmp/x" "/tmp/x/ours" "/tmp/x/base" "/tmp/x/theirs"⟩ ∧
    containsStr (extractSuccessText "/tmp/x" "/tmp/x/ours" "/tmp/x/base" "/tmp/x/theirs")
      "/tmp/x" ∧
    containsStr (extractSuccessText "/tmp/x" "/tmp/x/ours" "/tmp/x/base" "/tmp/x/theirs")
      "/tmp/x/ours" ∧
    containsStr (extractSuccessText "/tmp/x" "/tmp/x/ours" "/tmp/x/base" "/tmp/x/theirs")
      "/tmp/x/base" ∧
    containsStr (extractSuccessText "/tmp/x" "/tmp/x/ours" "/tmp/x/base" "/tmp/x/theirs")
      "/tmp/x/theirs" :=
  (c6_extract_conflict_files_parse
    ⟨"/r", fun _ => true,
      fun _ _ => .completed 0 (pyEncode "/tmp/x:/tmp/x/ours:/tmp/x/base:/tmp/x/theirs\n") []⟩
    "c.txt" (pyEncode "/tmp/x:/tmp/x/ours:/tmp/x/base:/tmp/x/theirs\n") []
    "/tmp/x:/tmp/x/ours:/tmp/x/base:/tmp/x/theirs\n"
    "/tmp/x" "/tmp/x/ours" "/tmp/x/base" "/tmp/x/theirs" []
    (by decide) rfl rfl
    (pyDecode_pyEncode "/tmp/x:/tmp/x/ours:/tmp/x/base:/tmp/x/theirs\n")).1 (by decide)

/-- C7: for `git_check_dup`, a `remote_branch` equal to the default
`"origin/main"` (or absent) appends no branch token to argv; any other
string value appends exactly one extra token equal to that value. -/
theorem c7_check_dup_branch_token (env : Env) (s : String)
    (hex : env.scriptExists "git-check-dup" = true) (hs : s ≠ "origin/main") :
    (call_tool env "git_check_dup" []).spawns =
      [⟨[.vStr (env.scriptDir ++ "/" ++ "git-check-dup")], none⟩] ∧
    (call_tool env "git_check_dup" [("remote_branch", .vStr "origin/main")]).spawns =
      [⟨[.vStr (env.scriptDir ++ "/" ++ "git-check-dup")], none⟩] ∧
    (call_tool env "git_check_dup" [("remote_branch", .vStr s)]).spawns =
      [⟨[.vStr (env.scriptDir ++ "/" ++ "git-check-dup"), .vStr s], none⟩] := by
  have hgs : getScriptPath env "git-check-dup" =
      .ok (env.scriptDir ++ "/" ++ "git-check-dup") := by
    simp [getScriptPath, hex]
  refine ⟨?_, ?_, ?_⟩
  · rw [call_tool_spawns env "git_check_dup" [] handle_git_check_dup rfl]
    simp only [handle_git_check_dup]
    rw [hgs]
    rfl
  · rw [call_tool_spawns env "git_check_dup" _ handle_git_check_dup rfl]
    simp only [handle_git_check_dup]
    rw [hgs]
    rfl
  · rw [call_tool_spawns env "git_check_dup" _ handle_git_check_dup rfl]
    simp only [handle_git_check_dup]
    rw [hgs]
    dsimp only
    have hcond : ¬(pyGetD [("remote_branch", PyVal.vStr s)] "remote_branch"
        (PyVal.vStr "origin/main") = PyVal.vStr "origin/main") := by
      intro h
      rw [show pyGetD [("remote_branch", PyVal.vStr s)] "remote_branch"
        (PyVal.vStr "origin/main") = PyVal.vStr s from rfl] at h
      exact hs (PyVal.vStr.inj h)
    rw [if_neg hcond]
    rfl

/-- C7 witness: concrete environment, default and non-default branch. -/
theorem c7_check_dup_branch_token_witness :
    (call_tool ⟨"/r", fun _ => true, fun _ _ => .completed 0 [] []⟩
        "git_check_dup" []).spawns =
      [⟨[.vStr ("/r" ++ "/" ++ "git-check-dup")], none⟩] ∧
    (call_tool ⟨"/r", fun _ => true, fun _ _ => .completed 0 [] []⟩
        "git_check_dup" [("remote_branch", .vStr "origin/main")]).spawns =
      [⟨[.vStr ("/r" ++ "/" ++ "git-check-dup")], none⟩] ∧
    (call_tool ⟨"/r", fun _ => true, fun _ _ => .completed 0 [] []⟩
        "git_check_dup" [("remote_branch", .vStr "dev")]).spawns =
      [⟨[.vStr ("/r" ++ "/" ++ "git-check-dup"), .vStr "dev"], none⟩] :=
  c7_check_dup_branch_token ⟨"/r", fun _ => true, fun _ _ => .completed 0 [] []⟩ "dev"
    rfl (by decide)

/-- C8: for `git_undo`, `confirm = true` makes the command run with stdin
text `"y\n"`; with `confirm` false or absent no stdin is supplied. -/
theorem c8_undo_confirm_stdin (env : Env) (hex : env.scriptExists "git-undo" = true) :
    (call_tool env "git_undo" [("confirm", .vBool true)]).spawns =
      [⟨[.vStr (env.scriptDir ++ "/" ++ "git-undo")], some "y\n"⟩] ∧
    (call_tool env "git_undo" [("confirm", .vBool false)]).spawns =
      [⟨[.vStr (env.scriptDir ++ "/" ++ "git-undo")], none⟩] ∧
    (call_tool env "git_undo" []).spawns =
      [⟨[.vStr (env.scriptDir ++ "/" ++ "git-undo")], none⟩] := by
  have hgs : getScriptPath env "git-undo" = .ok (env.scriptDir ++ "/" ++ "git-undo") := by
    simp [getScriptPath, hex]
  refine ⟨?_, ?_, ?_⟩ <;>
    (rw [call_tool_spawns env "git_undo" _ handle_git_undo rfl]
     simp only [handle_git_undo]
     rw [hgs]
     rfl)

/-- C8 witness. -/
theorem c8_undo_confirm_stdin_witness :
    (call_tool ⟨"/r", fun _ => true, fun _ _ => .completed 0 [] []⟩
        "git_undo" [("confirm", .vBool true)]).spawns =
      [⟨[.vStr ("/r" ++ "/" ++ "git-undo")], some "y\n"⟩] ∧
    (call_tool ⟨"/r", fun _ => true, fun _ _ => .completed 0 [] []⟩
        "git_undo" [("confirm", .vBool false)]).spawns =
      [⟨[.vStr ("/r" ++ "/" ++ "git-undo")], none⟩] ∧
    (call_tool ⟨"/r", fun _ => true, fun _ _ => .completed 0 [] []⟩
        "git_undo" []).spawns =
      [⟨[.vStr ("/r" ++ "/" ++ "git-undo")], none⟩] :=
  c8_undo_confirm_stdin ⟨"/r", fun _ => true, fun _ _ => .completed 0 [] []⟩ rfl

/-- C9: supplying `false` for any boolean flag argument produces exactly
the same call outcome — in particular the same argv — as omitting the
argument, for every boolean flag of every tool (`quiet`, `apply`,
`local`, `message_only`, and the stdin-gating `confirm` flags). -/
theorem c9_bool_flag_roundtrip (env : Env) (p : String) :
    call_tool env "git_check_dup" [("quiet", .vBool false)] =
      call_tool env "git_check_dup" [] ∧
    call_tool env "git_remove_redundant_commits" [("apply", .vBool false)] =
      call_tool env "git_remove_redundant_commits" [] ∧
    call_tool env "git_find_file" [("pattern", .vStr p), ("local", .vBool false)] =
      call_tool env "git_find_file" [("pattern", .vStr p)] ∧
    call_tool env "git_redo" [("message_only", .vBool false)] =
      call_tool env "git_redo" [] ∧
    call_tool env "git_undo" [("confirm", .vBool false)] =
      call_tool env "git_undo" [] ∧
    call_tool env "git_redo" [("confirm", .vBool false)] =
      call_tool env "git_redo" [] ∧
    call_tool env "git_recommit" [("confirm", .vBool false)] =
      call_tool env "git_recommit" [] :=
  ⟨rfl, rfl, rfl, rfl, rfl, rfl, rfl⟩

/-- C10: `_handle_git_find_file` resolves the script path before
validating `pattern`.  With the script absent, a missing/empty pattern
yields the script-not-found-derived generic error envelope; with the
script present it yields the dedicated validation envelope.  In both
cases no process is spawned. -/
theorem c10_find_file_resolution_order (env1 env2 : Env) (args : Args)
    (hp : (pyGet args "pattern").truthy = false)
    (h1 : env1.scriptExists "git-find_file" = false)
    (h2 : env2.scriptExists "git-find_file" = true) :
    call_tool env1 "git_find_file" args =
      ⟨.ok ⟨true, "Tool execution failed: " ++
        ("Script not found: " ++ (env1.scriptDir ++ "/" ++ "git-find_file"))⟩, []⟩ ∧
    call_tool env2 "git_find_file" args =
      ⟨.ok ⟨true, "❌ Error: pattern parameter is required"⟩, []⟩ := by
  constructor
  · have hgs1 : getScriptPath env1 "git-find_file" =
        .error (.fileNotFoundError
          ("Script not found: " ++ (env1.scriptDir ++ "/" ++ "git-find_file"))) := by
      simp [getScriptPath, h1]
    have hh : handle_git_find_file env1 args =
        ⟨.error (.fileNotFoundError
          ("Script not found: " ++ (env1.scriptDir ++ "/" ++ "git-find_file"))), []⟩ := by
      simp only [handle_git_find_file]
      rw [hgs1]
    unfold call_tool
    rw [show findHandler handlers "git_find_file" = some handle_git_find_file from rfl]
    dsimp only
    rw [hh]
    rfl
  · have hgs2 : getScriptPath env2 "git-find_file" =
        .ok (env2.scriptDir ++ "/" ++ "git-find_file") := by
      simp [getScriptPath, h2]
    have hcond : (!(pyGet args "pattern").truthy) = true := by
      rw [hp]
      rfl
    have hh : handle_git_find_file env2 args =
        ⟨.ok ⟨true, "❌ Error: pattern parameter is required"⟩, []⟩ := by
      simp only [handle_git_find_file]
      rw [hgs2]
      dsimp only
      rw [if_pos hcond]
    unfold call_tool
    rw [show findHandler handlers "git_find_file" = some handle_git_find_file from rfl]
    dsimp only
    rw [hh]

/-- C10 witness: absent pattern with the script missing and present. -/
theorem c10_find_file_resolution_order_witness :
    call_tool ⟨"/r", fun _ => false, fun _ _ => .completed 0 [] []⟩ "git_find_file" [] =
      ⟨.ok ⟨true, "Tool execution failed: " ++
        ("Script not found: " ++ ("/r" ++ "/" ++ "git-find_file"))⟩, []⟩ ∧
    call_tool ⟨"/r", fun _ => true, fun _ _ => .completed 0 [] []⟩ "git_find_file" [] =
      ⟨.ok ⟨true, "❌ Error: pattern parameter is required"⟩, []⟩ :=
  c10_find_file_resolution_order
    ⟨"/r", fun _ => false, fun _ _ => .completed 0 [] []⟩
    ⟨"/r", fun _ => true, fun _ _ => .completed 0 [] []⟩ [] rfl rfl rfl
